import Mathlib

/-!
Shallow embedding of `src/streamlit_app.py` (Drake sentiment feedback app).

The program is a Streamlit UI over a SQLite file with three tables
(`songs`, `sentiment_analysis`, `sentiment_qa`).  We model:

* the persisted file as a `DB` record: the list of created table names plus
  the rows of the three tables and the AUTOINCREMENT counters;
* the process-wide `@st.cache_resource` connection cache of `get_connection`
  as an `Option Conn` inside `AppState` (one fixed `db_path`, so one slot);
  a `Conn` carries only its `closed` flag — `conn.close()` mutates the cached
  handle, and `cursor()` / `execute` on a closed handle raises
  `sqlite3.ProgrammingError`, which the `try/except` blocks of the Store
  operations turn into their error results;
* SQL statements relationally: `CREATE TABLE IF NOT EXISTS` adds the name to
  the table list when absent, `INSERT` appends a row and bumps the counter
  (`lastrowid`), the `JOIN` query is an equijoin, the `WHERE` clause a filter.
  An `execute` touching a table that does not exist raises, i.e. takes the
  surrounding `except` branch.  Python sqlite3 leaves foreign keys advisory
  (PRAGMA foreign_keys defaults to OFF), so inserts never check them.

Sentiment scores are modelled as rationals (the scores occurring in the
program, 0.5 and 0.3, and their group means are exact).
-/

/-- Table-name string constant for `songs`. -/
def songsTable : String := "songs"

/-- Table-name string constant for `sentiment_analysis`. -/
def saTable : String := "sentiment_analysis"

/-- Table-name string constant for `sentiment_qa`. -/
def qaTable : String := "sentiment_qa"

/-- The empty string (Python falsy string). -/
def emptyStr : String := ""

/-- Model-name string `"VADER"` used by the seeder. -/
def vaderName : String := "VADER"

/-- Model-name string `"TextBlob"` used by the seeder. -/
def textblobName : String := "TextBlob"

/-- A row of the `songs` table. -/
structure Song where
  id : Nat
  title : String
  album : String
  release_date : String
  lyrics : String
  lyrics_url : String
deriving DecidableEq

/-- A row of the `sentiment_analysis` table. -/
structure SentimentAnalysis where
  id : Nat
  song_id : Nat
  model_name : String
  sentiment_score : ℚ
  sentiment_category : Option String
deriving DecidableEq

/-- A row of the `sentiment_qa` table (a persisted FeedbackRecord). -/
structure FeedbackRecord where
  id : Nat
  song_id : Nat
  sentiment_analysis_id : Nat
  explanation : String
  feedback : String
  is_accurate : Option Bool
  reviewer : String
deriving DecidableEq

/-- The persisted SQLite file: created tables, rows, AUTOINCREMENT counters. -/
structure DB where
  tables : List String
  songs : List Song
  analyses : List SentimentAnalysis
  qa : List FeedbackRecord
  nextSongId : Nat
  nextAnalysisId : Nat
  nextQaId : Nat
deriving DecidableEq

/-- A fresh empty database file (no tables yet, counters at 1). -/
def DB.emptyFile : DB := ⟨[], [], [], [], 1, 1, 1⟩

/-- A sqlite3 connection handle; only its closed flag matters to the logic. -/
structure Conn where
  closed : Bool
deriving DecidableEq

/-- An open connection, as returned by `sqlite3.connect`. -/
def openConn : Conn := ⟨false⟩

/-- A closed connection (after `conn.close()`). -/
def closedConn : Conn := ⟨true⟩

/-- Process state: the `@st.cache_resource` cache of `get_connection` for the
single `db_path`, and the persisted database file. -/
structure AppState where
  cache : Option Conn
  file : DB
deriving DecidableEq

/-- `get_connection(db_path)` under `@st.cache_resource`: return the cached
handle if present, else connect (an open handle) and cache it.  The
`os.makedirs` side effect has no observable footprint in this model. -/
def getConnection (s : AppState) : Conn × AppState :=
  match s.cache with
  | some c => (c, s)
  | none => (openConn, { s with cache := some openConn })

/-- `CREATE TABLE IF NOT EXISTS name (...)`: record the table name if new. -/
def createTableIfNotExists (name : String) (db : DB) : DB :=
  if name ∈ db.tables then db else { db with tables := db.tables ++ [name] }

/-- The three `CREATE TABLE IF NOT EXISTS` statements of `_initialize_db`,
in program order. -/
def initSchemaTables (db : DB) : DB :=
  createTableIfNotExists qaTable
    (createTableIfNotExists saTable (createTableIfNotExists songsTable db))

/-- `SentimentDatabase._initialize_db` (the constructor body): get the cached
connection, create the three tables, commit, and `conn.close()` — which closes
the handle still held by the cache.  `cursor()` on an already closed cached
handle raises `sqlite3.ProgrammingError`, uncaught here. -/
def initDb (s : AppState) : Except String AppState :=
  let p := getConnection s
  if p.1.closed then Except.error "Cannot operate on a closed database"
  else Except.ok { cache := some closedConn, file := initSchemaTables p.2.file }

/-- One joined row of the `get_sentiment_analyses` SELECT. -/
structure AnalysisRow where
  id : Nat
  song_id : Nat
  title : String
  model_name : String
  sentiment_score : ℚ
  sentiment_category : Option String
deriving DecidableEq

/-- `FROM sentiment_analysis sa JOIN songs s ON sa.song_id = s.id`:
the equijoin of the two tables, producing the selected columns. -/
def joinedAnalyses (db : DB) : List AnalysisRow :=
  db.analyses.flatMap (fun sa =>
    (db.songs.filter (fun s => sa.song_id = s.id)).map (fun s =>
      ⟨sa.id, sa.song_id, s.title, sa.model_name, sa.sentiment_score,
        sa.sentiment_category⟩))

/-- `SentimentDatabase.get_sentiment_analyses(model_name=None)`.
Python's `if model_name:` is falsy for `None` and for the empty string, so a
`Some ""` filter runs the unfiltered query.  A closed cached handle or a
missing table raises inside the `try`, and the `except` returns `[]`. -/
def getSentimentAnalyses (model_name : Option String) (s : AppState) :
    List AnalysisRow × AppState :=
  let p := getConnection s
  if p.1.closed then ([], p.2)
  else if saTable ∈ p.2.file.tables ∧ songsTable ∈ p.2.file.tables then
    match model_name with
    | some m =>
        if m = emptyStr then (joinedAnalyses p.2.file, p.2)
        else ((joinedAnalyses p.2.file).filter (fun r => r.model_name = m), p.2)
    | none => (joinedAnalyses p.2.file, p.2)
  else ([], p.2)

/-- `SentimentDatabase.save_sentiment_analysis`: INSERT one row, return
`cursor.lastrowid`; on a closed handle or missing table the `except` branch
returns `None`.  Foreign keys are advisory (not checked). -/
def saveSentimentAnalysis (song_id : Nat) (model_name : String)
    (sentiment_score : ℚ) (sentiment_category : Option String)
    (s : AppState) : Option Nat × AppState :=
  let p := getConnection s
  if p.1.closed then (none, p.2)
  else if saTable ∈ p.2.file.tables then
    let db := p.2.file
    let said := db.nextAnalysisId
    (some said,
      { p.2 with file :=
        { db with
          analyses := db.analyses ++
            [⟨said, song_id, model_name, sentiment_score, sentiment_category⟩],
          nextAnalysisId := said + 1 } })
  else (none, p.2)

/-- `INSERT INTO songs (title, album, release_date, lyrics, lyrics_url)`
followed by reading `cursor.lastrowid`. -/
def insertSong (f : String × String × String × String × String) (db : DB) :
    Nat × DB :=
  let sid := db.nextSongId
  (sid,
    { db with
      songs := db.songs ++ [⟨sid, f.1, f.2.1, f.2.2.1, f.2.2.2.1, f.2.2.2.2⟩],
      nextSongId := sid + 1 })

/-- First sample song of `initialize_sample_data`. -/
def sampleSong1 : String × String × String × String × String :=
  ("Hotline Bling", "Views", "2016-04-29",
   "You used to call me on my cell phone\nLate night when you need my love\nCall me on my cell phone\nLate night when you need my love\nI know when that hotline bling\nThat can only mean one thing\nI know when that hotline bling\nThat can only mean one thing",
   "https://genius.com/Drake-hotline-bling-lyrics")

/-- Second sample song of `initialize_sample_data`. -/
def sampleSong2 : String × String × String × String × String :=
  ("God\x27s Plan", "Scorpion", "2018-06-29",
   "Yeah, they wishin\x27 and wishin\x27 and wishin\x27 and wishin\x27\nThey wishin\x27 on me, yeah\nI been movin\x27 calm, don\x27t start no trouble with me\nTryna keep it peaceful is a struggle for me\nDon\x27t pull up at 6 AM to cuddle with me\nYou know how I like it when you lovin\x27 on me\nI don\x27t wanna die for them",
   "https://genius.com/Drake-gods-plan-lyrics")

/-- `initialize_sample_data(db)`: count the songs; when zero, insert the two
sample songs and, for each, two sentiment analyses via
`db.save_sentiment_analysis` (VADER 0.5 Neutral, TextBlob 0.3 Slightly
Positive).  Any raise (closed cached handle, missing `songs` table) is caught
by the outer `except` and reported, leaving the state as it was. -/
def initSampleData (s : AppState) : AppState :=
  let p := getConnection s
  if p.1.closed then p.2
  else if songsTable ∈ p.2.file.tables then
    if p.2.file.songs.length = 0 then
      let r1 := insertSong sampleSong1 p.2.file
      let s1 : AppState := { p.2 with file := r1.2 }
      let s2 := (saveSentimentAnalysis r1.1 vaderName (1/2)
        (some "Neutral") s1).2
      let s3 := (saveSentimentAnalysis r1.1 textblobName (3/10)
        (some "Slightly Positive") s2).2
      let r2 := insertSong sampleSong2 s3.file
      let s4 : AppState := { s3 with file := r2.2 }
      let s5 := (saveSentimentAnalysis r2.1 vaderName (1/2)
        (some "Neutral") s4).2
      (saveSentimentAnalysis r2.1 textblobName (3/10)
        (some "Slightly Positive") s5).2
    else p.2
  else p.2

/-- Outcome of a feedback form submission as surfaced to the user. -/
inductive SubmitResult where
  | success
  | validationError
  | errorShown
deriving DecidableEq

/-- The radio-choice conversion in `main`: `"Yes" → True`, `"No" → False`,
anything else (in particular `"Partially"`) leaves the initial `None`. -/
def isAccurateToBool (choice : String) : Option Bool :=
  if choice = "Yes" then some true
  else if choice = "No" then some false
  else none

/-- The submit branch of the feedback form in `main`: an empty explanation is
rejected inline (`if explanation:` falsy) before anything touches the store;
otherwise one row is inserted into `sentiment_qa` with the selected analysis's
`song_id` and `id`, the converted accuracy flag, and the free-text fields.
A raise inside the `try` (closed handle, missing table) shows an error. -/
def submitFeedback (selected : AnalysisRow) (choice explanation reviewer
    feedback : String) (s : AppState) : SubmitResult × AppState :=
  if explanation = emptyStr then (SubmitResult.validationError, s)
  else
    let p := getConnection s
    if p.1.closed then (SubmitResult.errorShown, p.2)
    else if qaTable ∈ p.2.file.tables then
      let db := p.2.file
      let qid := db.nextQaId
      (SubmitResult.success,
        { p.2 with file :=
          { db with
            qa := db.qa ++
              [⟨qid, selected.song_id, selected.id, explanation, feedback,
                isAccurateToBool choice, reviewer⟩],
            nextQaId := qid + 1 } })
    else (SubmitResult.errorShown, p.2)

/-- `df.groupby('model_name')['sentiment_score'].mean()` for one model name:
the mean of the scores of the rows with that model name. -/
def modelMean (rows : List AnalysisRow) (m : String) : ℚ :=
  let scores := (rows.filter (fun r => r.model_name = m)).map
    (fun r => r.sentiment_score)
  scores.sum / (scores.length : ℚ)

/-- The connection the next operation will obtain is open (fresh cache, or a
cached open handle). -/
def cacheOpen (s : AppState) : Prop := (getConnection s).1.closed = false

instance (s : AppState) : Decidable (cacheOpen s) := by
  unfold cacheOpen; infer_instance

/-- All three tables exist in the file. -/
def tablesReady (db : DB) : Prop :=
  songsTable ∈ db.tables ∧ saTable ∈ db.tables ∧ qaTable ∈ db.tables

instance (db : DB) : Decidable (tablesReady db) := by
  unfold tablesReady; infer_instance

/-! ### Helper lemmas -/

lemma getConnection_none (file : DB) :
    getConnection ⟨none, file⟩ = (openConn, ⟨some openConn, file⟩) := rfl

lemma getConnection_some (c : Conn) (file : DB) :
    getConnection ⟨some c, file⟩ = (c, ⟨some c, file⟩) := rfl

lemma createTable_of_mem (n : String) (db : DB) (h : n ∈ db.tables) :
    createTableIfNotExists n db = db := by
  simp [createTableIfNotExists, h]

lemma mem_createTable_self (n : String) (db : DB) :
    n ∈ (createTableIfNotExists n db).tables := by
  unfold createTableIfNotExists
  split <;> simp_all

lemma mem_createTable_mono (t n : String) (db : DB) (h : t ∈ db.tables) :
    t ∈ (createTableIfNotExists n db).tables := by
  unfold createTableIfNotExists
  split <;> simp_all

lemma tablesReady_initSchema (db : DB) : tablesReady (initSchemaTables db) :=
  ⟨mem_createTable_mono _ _ _ (mem_createTable_mono _ _ _
      (mem_createTable_self _ _)),
   mem_createTable_mono _ _ _ (mem_createTable_self _ _),
   mem_createTable_self _ _⟩

lemma initSchema_idem (db : DB) :
    initSchemaTables (initSchemaTables db) = initSchemaTables db := by
  obtain ⟨h1, h2, h3⟩ := tablesReady_initSchema db
  show createTableIfNotExists qaTable (createTableIfNotExists saTable
    (createTableIfNotExists songsTable (initSchemaTables db))) =
    initSchemaTables db
  rw [createTable_of_mem songsTable _ h1, createTable_of_mem saTable _ h2,
    createTable_of_mem qaTable _ h3]

lemma createTable_nodup (n : String) (db : DB) (h : db.tables.Nodup) :
    (createTableIfNotExists n db).tables.Nodup := by
  unfold createTableIfNotExists
  split
  · exact h
  · rename_i hn
    simp [List.nodup_append, h, hn]

lemma initSchema_nodup (db : DB) (h : db.tables.Nodup) :
    (initSchemaTables db).tables.Nodup :=
  createTable_nodup _ _ (createTable_nodup _ _ (createTable_nodup _ _ h))

/-! ### C1 -/

/-- C1: schema initialization is idempotent on a store.  Starting from any
persisted file (with no duplicate tables, as SQLite guarantees), running the
`SentimentDatabase` constructor's `_initialize_db` against the store, and
running it again on the resulting store, both succeed (no error), produce
identical files with no duplicate table names, and afterwards the three
tables `songs`, `sentiment_analysis`, `sentiment_qa` all exist. -/
theorem schema_init_twice (file : DB) (hnd : file.tables.Nodup) :
    ∃ s1 s2 : AppState,
      initDb ⟨none, file⟩ = Except.ok s1 ∧
      initDb ⟨none, s1.file⟩ = Except.ok s2 ∧
      s2.file = s1.file ∧
      s1.file.tables.Nodup ∧
      tablesReady s1.file := by
  refine ⟨⟨some closedConn, initSchemaTables file⟩,
    ⟨some closedConn, initSchemaTables file⟩, rfl, ?_, rfl,
    initSchema_nodup _ hnd, tablesReady_initSchema _⟩
  simp [initDb, getConnection, openConn, initSchema_idem]

/-- Witness for C1 at the fresh empty file. -/
theorem schema_init_twice_w :
    DB.emptyFile.tables.Nodup ∧
    (∃ s1 s2 : AppState,
      initDb ⟨none, DB.emptyFile⟩ = Except.ok s1 ∧
      initDb ⟨none, s1.file⟩ = Except.ok s2 ∧
      s2.file = s1.file ∧
      s1.file.tables.Nodup ∧
      tablesReady s1.file) :=
  ⟨by decide, schema_init_twice DB.emptyFile (by decide)⟩

/-! ### C2 -/

/-- C2: after `SentimentDatabase` construction in a fresh process, the cached
connection of `get_connection` has been closed (`conn.close()` at the end of
`_initialize_db`); every subsequent Store operation obtains that same closed
handle, so `get_sentiment_analyses` returns the empty list and
`save_sentiment_analysis` returns `None`, each leaving the state unchanged
(nothing is read from or written to the persisted store). -/
theorem closed_conn_after_init (s0 s1 : AppState) (h0 : s0.cache = none)
    (h1 : initDb s0 = Except.ok s1) :
    s1.cache = some closedConn ∧
    (getConnection s1).1 = closedConn ∧
    (∀ m, getSentimentAnalyses m s1 = ([], s1)) ∧
    (∀ sid mn sc cat, saveSentimentAnalysis sid mn sc cat s1 = (none, s1)) := by
  obtain ⟨c, file⟩ := s0
  simp only [AppState.cache] at h0
  subst h0
  have hs : s1 = ⟨some closedConn, initSchemaTables file⟩ := by
    simp [initDb, getConnection, openConn] at h1
    exact h1.symm
  subst hs
  refine ⟨rfl, rfl, ?_, ?_⟩
  · intro m
    simp [getSentimentAnalyses, getConnection, closedConn]
  · intro sid mn sc cat
    simp [saveSentimentAnalysis, getConnection, closedConn]

/-- Witness for C2: the fresh process state over an empty file. -/
theorem closed_conn_after_init_w :
    (⟨none, DB.emptyFile⟩ : AppState).cache = none ∧
    initDb ⟨none, DB.emptyFile⟩ =
      Except.ok ⟨some closedConn, initSchemaTables DB.emptyFile⟩ ∧
    ((⟨some closedConn, initSchemaTables DB.emptyFile⟩ : AppState).cache =
        some closedConn ∧
      (getConnection ⟨some closedConn, initSchemaTables DB.emptyFile⟩).1 =
        closedConn ∧
      (∀ m, getSentimentAnalyses m
          ⟨some closedConn, initSchemaTables DB.emptyFile⟩ =
        ([], ⟨some closedConn, initSchemaTables DB.emptyFile⟩)) ∧
      (∀ sid mn sc cat, saveSentimentAnalysis sid mn sc cat
          ⟨some closedConn, initSchemaTables DB.emptyFile⟩ =
        (none, ⟨some closedConn, initSchemaTables DB.emptyFile⟩))) :=
  ⟨rfl, rfl, closed_conn_after_init ⟨none, DB.emptyFile⟩
    ⟨some closedConn, initSchemaTables DB.emptyFile⟩ rfl rfl⟩

/-! ### C4 -/

/-- C4: the seeder is a no-op on a non-empty store.  Whenever the songs table
holds at least one row, `initialize_sample_data` leaves the persisted file —
song count and all existing records of all three tables — unchanged (this
holds in every branch: the zero-count check fails, and the error branches do
not write either). -/
theorem seeder_nonempty_noop (s : AppState) (h : s.file.songs ≠ []) :
    (initSampleData s).file = s.file := by
  obtain ⟨cache, file⟩ := s
  have hlen : ¬ (file.songs.length = 0) := by
    simpa [List.length_eq_zero] using h
  rcases cache with _ | ⟨closed⟩
  · simp [initSampleData, getConnection, openConn, hlen, apply_ite]
  · cases closed
    simp [initSampleData, getConnection, hlen, apply_ite]

/-- Witness for C4: a store with one song. -/
theorem seeder_nonempty_noop_w :
    (⟨none, ⟨[songsTable, saTable, qaTable],
        [⟨1, "A", "B", "C", "D", "E"⟩], [], [], 2, 1, 1⟩⟩ :
      AppState).file.songs ≠ [] ∧
    (initSampleData ⟨none, ⟨[songsTable, saTable, qaTable],
        [⟨1, "A", "B", "C", "D", "E"⟩], [], [], 2, 1, 1⟩⟩).file =
      (⟨none, ⟨[songsTable, saTable, qaTable],
        [⟨1, "A", "B", "C", "D", "E"⟩], [], [], 2, 1, 1⟩⟩ : AppState).file :=
  ⟨by decide, seeder_nonempty_noop _ (by decide)⟩

/-! ### C3 -/

/-- C3: seeding an empty store.  With a usable connection and the schema in
place, running `initialize_sample_data` on a store with no songs and no
analyses yields exactly 2 songs and exactly 4 sentiment analyses: the two
songs get distinct ids, and each song has exactly its two analyses, model
`"VADER"` with score 0.5 and model `"TextBlob"` with score 0.3, each
analysis's `song_id` referencing the song it was inserted for. -/
theorem seeder_on_empty (s : AppState) (hopen : cacheOpen s)
    (ht : songsTable ∈ s.file.tables) (hsa : saTable ∈ s.file.tables)
    (hsongs : s.file.songs = []) (hana : s.file.analyses = []) :
    ∃ id1 id2 : Nat, id1 ≠ id2 ∧
      (initSampleData s).file.songs.length = 2 ∧
      (initSampleData s).file.analyses.length = 4 ∧
      (initSampleData s).file.songs.map Song.id = [id1, id2] ∧
      (initSampleData s).file.analyses.map
          (fun a => (a.song_id, a.model_name, a.sentiment_score)) =
        [(id1, vaderName, 1/2), (id1, textblobName, 3/10),
         (id2, vaderName, 1/2), (id2, textblobName, 3/10)] := by
  obtain ⟨cache, file⟩ := s
  dsimp only at ht hsa hsongs hana
  refine ⟨file.nextSongId, file.nextSongId + 1, by omega, ?_⟩
  simp only [cacheOpen] at hopen
  rcases cache with _ | ⟨⟨cl⟩⟩
  · simp [initSampleData, getConnection, openConn, saveSentimentAnalysis,
      insertSong, hsongs, hana, ht, hsa]
  · simp only [getConnection] at hopen
    subst hopen
    simp [initSampleData, getConnection, openConn, saveSentimentAnalysis,
      insertSong, hsongs, hana, ht, hsa]

/-- Witness for C3: the empty store right after schema creation. -/
theorem seeder_on_empty_w :
    cacheOpen ⟨none, initSchemaTables DB.emptyFile⟩ ∧
    songsTable ∈ (initSchemaTables DB.emptyFile).tables ∧
    saTable ∈ (initSchemaTables DB.emptyFile).tables ∧
    (initSchemaTables DB.emptyFile).songs = [] ∧
    (initSchemaTables DB.emptyFile).analyses = [] ∧
    (∃ id1 id2 : Nat, id1 ≠ id2 ∧
      (initSampleData ⟨none, initSchemaTables DB.emptyFile⟩).file.songs.length
        = 2 ∧
      (initSampleData
          ⟨none, initSchemaTables DB.emptyFile⟩).file.analyses.length = 4 ∧
      (initSampleData ⟨none, initSchemaTables DB.emptyFile⟩).file.songs.map
          Song.id = [id1, id2] ∧
      (initSampleData ⟨none, initSchemaTables DB.emptyFile⟩).file.analyses.map
          (fun a => (a.song_id, a.model_name, a.sentiment_score)) =
        [(id1, vaderName, 1/2), (id1, textblobName, 3/10),
         (id2, vaderName, 1/2), (id2, textblobName, 3/10)]) :=
  ⟨by decide, by decide, by decide, by decide, by decide,
    seeder_on_empty ⟨none, initSchemaTables DB.emptyFile⟩ (by decide)
      (by decide) (by decide) (by decide) (by decide)⟩

/-! ### C5 -/

lemma mem_joined (db : DB) (sa : SentimentAnalysis) (song : Song)
    (h1 : sa ∈ db.analyses) (h2 : song ∈ db.songs)
    (h3 : sa.song_id = song.id) :
    (⟨sa.id, sa.song_id, song.title, sa.model_name, sa.sentiment_score,
      sa.sentiment_category⟩ : AnalysisRow) ∈ joinedAnalyses db := by
  unfold joinedAnalyses
  refine List.mem_flatMap.mpr ⟨sa, h1, ?_⟩
  refine List.mem_map.mpr ⟨song, ?_, rfl⟩
  refine List.mem_filter.mpr ⟨h2, ?_⟩
  simp [h3]

/-- A demo store used as concrete input by witnesses and the counterexample:
schema present, one song, one VADER analysis, an open cached connection. -/
def demoSong : Song := ⟨1, "Song A", "Album A", "2020-01-01", "la", "http://a"⟩

/-- The demo file: three tables, `demoSong`, one VADER analysis of it. -/
def demoDb : DB :=
  ⟨[songsTable, saTable, qaTable], [demoSong],
    [⟨1, 1, vaderName, 1/2, none⟩], [], 2, 2, 1⟩

/-- Demo process state holding `demoDb` and an open cached connection. -/
def demoState : AppState := ⟨some openConn, demoDb⟩

/-- The joined row of the single analysis of `demoDb`. -/
def demoRow : AnalysisRow := ⟨1, 1, "Song A", vaderName, 1/2, none⟩

/-- C5: round-trip of a saved analysis.  For every store, with a usable
connection and the schema present, and every song present in the store,
`save_sentiment_analysis(song.id, modelName, score)` followed by
`get_sentiment_analyses()` yields a record whose `model_name` equals
`modelName`, whose `sentiment_score` equals `score`, and whose joined
`title` equals that song's title. -/
theorem save_then_get_roundtrip (s : AppState) (song : Song) (mn : String)
    (sc : ℚ) (cat : Option String) (hopen : cacheOpen s)
    (hsa : saTable ∈ s.file.tables) (hsongs : songsTable ∈ s.file.tables)
    (hmem : song ∈ s.file.songs) :
    ∃ r ∈ (getSentimentAnalyses none
        (saveSentimentAnalysis song.id mn sc cat s).2).1,
      r.model_name = mn ∧ r.sentiment_score = sc ∧ r.title = song.title := by
  obtain ⟨cache, file⟩ := s
  dsimp only at hsa hsongs hmem
  simp only [cacheOpen] at hopen
  rcases cache with _ | ⟨⟨cl⟩⟩
  · simp only [saveSentimentAnalysis,
      getSentimentAnalyses, getConnection, openConn, hsa, hsongs]
    simp [hsa, hsongs]
    exact ⟨_, mem_joined _ ⟨file.nextAnalysisId, song.id, mn, sc, cat⟩ song
      (by simp) (by simp [hmem]) rfl, rfl, rfl, rfl⟩
  · simp only [getConnection] at hopen
    subst hopen
    simp only [saveSentimentAnalysis, getSentimentAnalyses, getConnection,
      openConn, hsa, hsongs]
    simp [hsa, hsongs]
    exact ⟨_, mem_joined _ ⟨file.nextAnalysisId, song.id, mn, sc, cat⟩ song
      (by simp) (by simp [hmem]) rfl, rfl, rfl, rfl⟩

/-- Witness for C5 at the demo store. -/
theorem save_then_get_roundtrip_w :
    cacheOpen demoState ∧ saTable ∈ demoState.file.tables ∧
    songsTable ∈ demoState.file.tables ∧ demoSong ∈ demoState.file.songs ∧
    (∃ r ∈ (getSentimentAnalyses none
        (saveSentimentAnalysis demoSong.id textblobName (3/10) none
          demoState).2).1,
      r.model_name = textblobName ∧ r.sentiment_score = 3/10 ∧
      r.title = demoSong.title) :=
  ⟨by decide, by decide, by decide, by decide,
    save_then_get_roundtrip demoState demoSong textblobName (3/10) none
      (by decide) (by decide) (by decide) (by decide)⟩

/-! ### C6 -/

/-- C6 counterexample: the claim quantifies over every model-name string, but
Python's `if model_name:` treats the empty string as "no filter", so
`get_sentiment_analyses("")` runs the unfiltered query.  On the demo store it
returns the VADER record, whose `model_name` is not `""` — refuting "every
record returned by `get_sentiment_analyses(m)` has `model_name` equal to
`m`" at `m = ""`. -/
theorem filter_empty_string_cex :
    ¬ (∀ r ∈ (getSentimentAnalyses (some emptyStr) demoState).1,
        r.model_name = emptyStr) := by
  decide

lemma getSA_filter_eq (s : AppState) (m : String) (hm : ¬ (m = emptyStr)) :
    (getSentimentAnalyses (some m) s).1 =
      (getSentimentAnalyses none s).1.filter (fun r => r.model_name = m) := by
  unfold getSentimentAnalyses
  by_cases hc : (getConnection s).1.closed = true
  · simp [hc]
  · simp only [hc, if_false, Bool.false_eq_true, if_neg, hm]
    split <;> simp [hm]

/-- C6 amended: for every store and every NON-EMPTY model-name string `m`,
every record returned by `get_sentiment_analyses(m)` has `model_name = m`,
and the unfiltered call returns a superset; for `m = ""` the filter is
silently ignored (Python truthiness) and the unfiltered query runs. -/
theorem filter_nonempty_correct (s : AppState) (m : String)
    (hm : m ≠ emptyStr) :
    (∀ r ∈ (getSentimentAnalyses (some m) s).1, r.model_name = m) ∧
    (∀ r ∈ (getSentimentAnalyses (some m) s).1,
        r ∈ (getSentimentAnalyses none s).1) := by
  rw [getSA_filter_eq s m hm]
  constructor
  · intro r hr
    simpa using (List.mem_filter.mp hr).2
  · intro r hr
    exact (List.mem_filter.mp hr).1

/-- Witness for the amended C6 at the demo store with filter `"VADER"`. -/
theorem filter_nonempty_correct_w :
    vaderName ≠ emptyStr ∧
    ((∀ r ∈ (getSentimentAnalyses (some vaderName) demoState).1,
        r.model_name = vaderName) ∧
      (∀ r ∈ (getSentimentAnalyses (some vaderName) demoState).1,
        r ∈ (getSentimentAnalyses none demoState).1)) :=
  ⟨by decide, filter_nonempty_correct demoState vaderName (by decide)⟩

/-! ### C7 -/

/-- C7: empty-explanation submissions are blocked atomically.  For every
store state and form contents, submitting with an empty explanation takes the
inline-error branch (`if explanation:` falsy) before any store access: the
result is the validation error and the state — including the `sentiment_qa`
rows — is exactly unchanged. -/
theorem empty_explanation_blocked (s : AppState) (sel : AnalysisRow)
    (choice reviewer fb : String) :
    submitFeedback sel choice emptyStr reviewer fb s =
      (SubmitResult.validationError, s) := by
  simp [submitFeedback]

/-! ### C8 -/

/-- C8: valid-submission postcondition.  With a non-empty explanation (the
accuracy radio always holds a selected value) and a usable connection and
existing `sentiment_qa` table, exactly one new FeedbackRecord is appended to
`sentiment_qa`, its `song_id` and `sentiment_analysis_id` equal the selected
analysis's `song_id` and `id`, and the other tables are untouched. -/
theorem valid_submission_inserts_one (s : AppState) (sel : AnalysisRow)
    (choice expl reviewer fb : String) (hexpl : expl ≠ emptyStr)
    (hopen : cacheOpen s) (hqa : qaTable ∈ s.file.tables) :
    ∃ rec : FeedbackRecord,
      (submitFeedback sel choice expl reviewer fb s).1 =
        SubmitResult.success ∧
      (submitFeedback sel choice expl reviewer fb s).2.file.qa =
        s.file.qa ++ [rec] ∧
      rec.song_id = sel.song_id ∧
      rec.sentiment_analysis_id = sel.id ∧
      (submitFeedback sel choice expl reviewer fb s).2.file.songs =
        s.file.songs ∧
      (submitFeedback sel choice expl reviewer fb s).2.file.analyses =
        s.file.analyses := by
  obtain ⟨cache, file⟩ := s
  dsimp only at hqa
  simp only [cacheOpen] at hopen
  refine ⟨⟨file.nextQaId, sel.song_id, sel.id, expl, fb,
    isAccurateToBool choice, reviewer⟩, ?_⟩
  rcases cache with _ | ⟨⟨cl⟩⟩
  · simp [submitFeedback, getConnection, openConn, hexpl, hqa]
  · simp only [getConnection] at hopen
    subst hopen
    simp [submitFeedback, getConnection, openConn, hexpl, hqa]

/-- Witness for C8 at the demo store. -/
theorem valid_submission_inserts_one_w :
    ("ok" : String) ≠ emptyStr ∧ cacheOpen demoState ∧
    qaTable ∈ demoState.file.tables ∧
    (∃ rec : FeedbackRecord,
      (submitFeedback demoRow "Yes" "ok" "rev" "fb" demoState).1 =
        SubmitResult.success ∧
      (submitFeedback demoRow "Yes" "ok" "rev" "fb" demoState).2.file.qa =
        demoState.file.qa ++ [rec] ∧
      rec.song_id = demoRow.song_id ∧
      rec.sentiment_analysis_id = demoRow.id ∧
      (submitFeedback demoRow "Yes" "ok" "rev" "fb" demoState).2.file.songs =
        demoState.file.songs ∧
      (submitFeedback demoRow "Yes" "ok" "rev" "fb"
          demoState).2.file.analyses = demoState.file.analyses) :=
  ⟨by decide, by decide, by decide,
    valid_submission_inserts_one demoState demoRow "Yes" "ok" "rev" "fb"
      (by decide) (by decide) (by decide)⟩

/-! ### C9 -/

/-- The radio option `"Yes"`. -/
def yesStr : String := "Yes"

/-- The radio option `"No"`. -/
def noStr : String := "No"

/-- The third radio option (the partial-accuracy choice). -/
def thirdChoiceStr : String := "Partially"

/-- C9: tri-state mapping of the accuracy choice.  `"Yes"` maps to `True`,
`"No"` to `False`, and `"Partially"` falls through to the initial `None`
(the stored `is_accurate` never distinguishes it from an absent judgment),
and a run of the submit handler on the demo store persists exactly these
values in the `is_accurate` field of the inserted `sentiment_qa` row. -/
theorem accuracy_tristate_mapping :
    isAccurateToBool yesStr = some true ∧
    isAccurateToBool noStr = some false ∧
    isAccurateToBool thirdChoiceStr = none ∧
    (submitFeedback demoRow yesStr "why" "rev" "fb" demoState).2.file.qa.map
        FeedbackRecord.is_accurate = [some true] ∧
    (submitFeedback demoRow noStr "why" "rev" "fb" demoState).2.file.qa.map
        FeedbackRecord.is_accurate = [some false] ∧
    (submitFeedback demoRow thirdChoiceStr "why" "rev" "fb"
        demoState).2.file.qa.map FeedbackRecord.is_accurate = [none] := by
  decide

/-! ### C10 -/

/-- The (model name, score) view of a joined row, the columns the analytics
group-by uses. -/
def rowPair (r : AnalysisRow) : String × ℚ := (r.model_name, r.sentiment_score)

/-- Group mean over bare (model name, score) pairs. -/
def meanPairs (l : List (String × ℚ)) (m : String) : ℚ :=
  let s := (l.filter (fun p => p.1 = m)).map Prod.snd
  s.sum / (s.length : ℚ)

lemma map_rowPair_filter (rows : List AnalysisRow) (m : String) :
    (rows.filter (fun r => r.model_name = m)).map rowPair =
      (rows.map rowPair).filter (fun p => p.1 = m) := by
  induction rows with
  | nil => rfl
  | cons r t ih =>
      by_cases h : r.model_name = m <;> simp [rowPair, h, ih]

lemma modelMean_eq_meanPairs (rows : List AnalysisRow) (m : String) :
    modelMean rows m = meanPairs (rows.map rowPair) m := by
  unfold modelMean meanPairs
  rw [← map_rowPair_filter]
  simp [List.map_map, Function.comp_def, rowPair]

lemma meanPairs_perm (l₁ l₂ : List (String × ℚ)) (m : String)
    (h : List.Perm l₁ l₂) :
    meanPairs l₁ m = meanPairs l₂ m := by
  simp only [meanPairs]
  have hf := h.filter (fun p => decide (p.1 = m))
  rw [(hf.map Prod.snd).sum_eq, (hf.map Prod.snd).length_eq]

/-- C10: the analytics view computes the mean sentiment score grouped by
model name over all analyses (`groupby('model_name')['sentiment_score']
.mean()`).  For any store whose listed analyses carry exactly the
(model, score) multiset VADER 0.5, VADER 0.5, TextBlob 0.3, the group mean is
0.5 for `"VADER"` and 0.3 for `"TextBlob"`. -/
theorem analytics_mean_by_model (s : AppState)
    (h : List.Perm ((getSentimentAnalyses none s).1.map rowPair)
      [(vaderName, 1/2), (vaderName, 1/2), (textblobName, 3/10)]) :
    modelMean (getSentimentAnalyses none s).1 vaderName = 1/2 ∧
    modelMean (getSentimentAnalyses none s).1 textblobName = 3/10 := by
  rw [modelMean_eq_meanPairs, modelMean_eq_meanPairs,
    meanPairs_perm _ _ vaderName h, meanPairs_perm _ _ textblobName h]
  constructor
  · have h1 : (decide (textblobName = vaderName)) = false := rfl
    norm_num [meanPairs, h1]
  · have h1 : (decide (vaderName = textblobName)) = false := rfl
    norm_num [meanPairs, h1]

/-- A store realising the C10 scenario: two songs, analyses VADER 0.5,
VADER 0.5, TextBlob 0.3. -/
def chartDb : DB :=
  ⟨[songsTable, saTable, qaTable],
    [demoSong, ⟨2, "Song B", "Album B", "2020-02-02", "lb", "http://b"⟩],
    [⟨1, 1, vaderName, 1/2, none⟩, ⟨2, 2, vaderName, 1/2, none⟩,
      ⟨3, 1, textblobName, 3/10, none⟩], [], 3, 4, 1⟩

/-- Process state over `chartDb` with an open cached connection. -/
def chartState : AppState := ⟨some openConn, chartDb⟩

/-- Witness for C10 at the scenario store. -/
theorem analytics_mean_by_model_w :
    List.Perm ((getSentimentAnalyses none chartState).1.map rowPair)
      [(vaderName, 1/2), (vaderName, 1/2), (textblobName, 3/10)] ∧
    (modelMean (getSentimentAnalyses none chartState).1 vaderName = 1/2 ∧
      modelMean (getSentimentAnalyses none chartState).1 textblobName =
        3/10) :=
  have he : (getSentimentAnalyses none chartState).1.map rowPair =
      [(vaderName, 1/2), (vaderName, 1/2), (textblobName, 3/10)] := rfl
  have hp : List.Perm ((getSentimentAnalyses none chartState).1.map rowPair)
      [(vaderName, 1/2), (vaderName, 1/2), (textblobName, 3/10)] := by
    rw [he]
  ⟨hp, analytics_mean_by_model chartState hp⟩
